import Mathlib

set_option maxRecDepth 100000
set_option maxHeartbeats 4000000

/-
Verification of the lMDQupdate metadata pipeline (lMDQupdate.go).

The development shallow-embeds the program: the SHA-1 content addressing
(gosaml.Hash with crypto.SHA1 plus hex.EncodeToString) is implemented
executably; the external XML engine (gosaml) is modelled by abstract
document records exposing exactly the query results the code consumes;
the file system is modelled by an explicit state record with the symlink
semantics of os.Stat / os.Remove / os.Symlink / os.RemoveAll /
filepath.EvalSymlinks that the code relies on.
-/

namespace LMDQ

/-- UTF-8 encoding of one Unicode code point as byte values; Go strings are
UTF-8 byte sequences and gosaml.Hash hashes those bytes. -/
def utf8EncodeNat (c : Nat) : List Nat :=
  if c < 128 then [c]
  else if c < 2048 then [192 ||| (c >>> 6), 128 ||| (c &&& 63)]
  else if c < 65536 then
    [224 ||| (c >>> 12), 128 ||| ((c >>> 6) &&& 63), 128 ||| (c &&& 63)]
  else
    [240 ||| (c >>> 18), 128 ||| ((c >>> 12) &&& 63),
     128 ||| ((c >>> 6) &&& 63), 128 ||| (c &&& 63)]

/-- Byte sequence of a string (the bytes Go hashes for `gosaml.Hash`). -/
def strBytes (s : String) : List Nat :=
  s.data.flatMap (fun c => utf8EncodeNat c.toNat)

/-- Left rotation of a 32-bit word represented as a Nat below 2^32. -/
def rotl32 (n x : Nat) : Nat :=
  ((x <<< n) ||| (x >>> (32 - n))) % 4294967296

/-- SHA-1 round function. -/
def sha1F (i b c d : Nat) : Nat :=
  if i < 20 then (b &&& c) ||| ((b ^^^ 4294967295) &&& d)
  else if i < 40 then (b ^^^ c) ^^^ d
  else if i < 60 then ((b &&& c) ||| (b &&& d)) ||| (c &&& d)
  else (b ^^^ c) ^^^ d

/-- SHA-1 round constants. -/
def sha1K (i : Nat) : Nat :=
  if i < 20 then 1518500249
  else if i < 40 then 1859775393
  else if i < 60 then 2400959708
  else 3395469782

/-- The 16 initial 32-bit words of one 64-byte block. -/
def sha1W16 (block : List Nat) : List Nat :=
  (List.range 16).map (fun i =>
    ((block.getD (4 * i) 0) <<< 24) + ((block.getD (4 * i + 1) 0) <<< 16) +
      ((block.getD (4 * i + 2) 0) <<< 8) + block.getD (4 * i + 3) 0)

/-- The 80 expanded message-schedule words of one block. -/
def sha1Ws (block : List Nat) : List Nat :=
  let w16 := sha1W16 block
  (List.range 80).foldl
    (fun ws i =>
      if i < 16 then ws ++ [w16.getD i 0]
      else ws ++ [rotl32 1 (((ws.getD (i - 3) 0) ^^^ (ws.getD (i - 8) 0)) ^^^
        ((ws.getD (i - 14) 0) ^^^ (ws.getD (i - 16) 0)))])
    []

/-- SHA-1 compression of one 64-byte block into the running state. -/
def sha1Compress (h : Nat × Nat × Nat × Nat × Nat) (block : List Nat) :
    Nat × Nat × Nat × Nat × Nat :=
  let ws := sha1Ws block
  let s := (List.range 80).foldl
    (fun st i =>
      match st with
      | (a, b, c, d, e) =>
        ((rotl32 5 a + sha1F i b c d + e + sha1K i + ws.getD i 0) % 4294967296,
          a, rotl32 30 b, c, d))
    h
  match h, s with
  | (h0, h1, h2, h3, h4), (a, b, c, d, e) =>
    ((h0 + a) % 4294967296, (h1 + b) % 4294967296, (h2 + c) % 4294967296,
      (h3 + d) % 4294967296, (h4 + e) % 4294967296)

/-- Split a byte list into 64-byte chunks (fuel-indexed structural recursion;
the fuel `l.length` suffices because each step consumes at least one byte). -/
def chunksAux : Nat → List Nat → List (List Nat)
  | 0, _ => []
  | _, [] => []
  | fuel + 1, l => l.take 64 :: chunksAux fuel (l.drop 64)

/-- The 64-byte blocks of a byte list. -/
def chunks64 (l : List Nat) : List (List Nat) :=
  chunksAux l.length l

/-- SHA-1 padding: a 0x80 byte, zeros, then the 64-bit big-endian bit
length, reaching a multiple of 64 bytes. -/
def sha1Pad (msg : List Nat) : List Nat :=
  let padZeros := (119 - msg.length % 64) % 64
  let bitLen := 8 * msg.length
  msg ++ 128 :: (List.replicate padZeros 0 ++
    (List.range 8).map (fun i => (bitLen >>> (8 * (7 - i))) % 256))

/-- SHA-1 digest (20 bytes) of a byte list. -/
def sha1Bytes (msg : List Nat) : List Nat :=
  let hs := (chunks64 (sha1Pad msg)).foldl sha1Compress
    (1732584193, 4023233417, 2562383102, 271733878, 3285377520)
  match hs with
  | (h0, h1, h2, h3, h4) =>
    [h0, h1, h2, h3, h4].flatMap
      (fun w => (List.range 4).map (fun i => (w >>> (8 * (3 - i))) % 256))

/-- Lower-case hex digit for a value below 16. -/
def hexDigit (n : Nat) : Char :=
  if n < 10 then Char.ofNat (48 + n) else Char.ofNat (87 + n)

/-- hex.EncodeToString: lower-case hex encoding of a byte list. -/
def hexEncodeToString (bs : List Nat) : String :=
  String.mk (bs.flatMap (fun b => [hexDigit (b / 16), hexDigit (b % 16)]))

/-- hex.EncodeToString(gosaml.Hash(crypto.SHA1, s)): the content address the
program computes for a lookup-key string. -/
def sha1Hex (s : String) : String :=
  hexEncodeToString (sha1Bytes (strBytes s))

/-! ## Entity indexer (createEntityFile, createMDQFiles)

The external XML engine (gosaml) is modelled shallowly: an
`EntityDescriptor` node is a record exposing exactly what the code reads
from it — its `entityID` attribute and the `Location` values matched by the
configured secondary-index XPath
(`./md:IDPSSODescriptor/md:SingleSignOnService[...]/@Location`). The
self-contained serialized fragment `gosaml.NewXpFromNode(entity).X2s()` is
modelled by the node value itself, so re-parsing a written fragment yields
the same node (the engine's serialize/parse round trip). -/

/-- One EntityDescriptor node as consumed by createMDQFiles. -/
structure EntityNode where
  entityID : String
  ssoLocations : List String
deriving DecidableEq

/-- A validated aggregate document: its EntityDescriptor nodes in document
order, as matched by `(/md:EntityDescriptor|/md:EntitiesDescriptor/md:EntityDescriptor)`. -/
structure MetaDoc where
  entities : List EntityNode
deriving DecidableEq

/-- createEntityFile: writes `entityMetadata` to the path
`fmt.Sprintf("%s/\x7bsha1\x7d%s", dirpath, filename)`; the write is modelled as the
produced (path, content) pair. -/
def createEntityFile (dirpath filename : String) (content : EntityNode) :
    String × EntityNode :=
  (dirpath ++ "/{sha1}" ++ filename, content)

/-- createMDQFiles: for each entity, write its fragment under the hex SHA-1
of its entityID, then under the hex SHA-1 of each matched SSO Location.
Returned is the sequence of file writes in program order. -/
def createMDQFiles (doc : MetaDoc) (baseFolder feedName : String) :
    List (String × EntityNode) :=
  let metadataPath := baseFolder ++ "/" ++ feedName
  doc.entities.flatMap (fun entity =>
    createEntityFile metadataPath (sha1Hex entity.entityID) entity ::
      entity.ssoLocations.map (fun loc =>
        createEntityFile metadataPath (sha1Hex loc) entity))

/-- The directory contents after performing a sequence of file writes in
order: os.Create truncates, so a later write to the same path overwrites an
earlier one. -/
def applyWrites (ws : List (String × EntityNode)) : List (String × EntityNode) :=
  ws.foldl (fun dir w => dir.filter (fun q => q.1 != w.1) ++ [w]) []

/-! ## File system and symlink promotion (symlinkMetadataFolder)

The file-system state records the existing real data directories (these are
populated snapshot directories, hence non-empty), the symbolic links
(link path, target path), and the paths on which recursive deletion fails
(permission model for os.RemoveAll errors). -/

/-- File-system state for the snapshot/symlink model. -/
structure FS where
  dirs : List String
  links : List (String × String)
  undeletable : List String
deriving DecidableEq

/-- The symlink at path `p`, if one exists. -/
def FS.isLink (fs : FS) (p : String) : Option String :=
  fs.links.lookup p

/-- filepath.EvalSymlinks: a symlink resolves to its target when the target
exists; a dangling symlink or a missing path is an error (`none`), in which
case the Go caller's `oldRealFolder` stays `""`. -/
def evalSymlinks (fs : FS) (p : String) : Option String :=
  match fs.isLink p with
  | some t => if t ∈ fs.dirs then some t else none
  | none => if p ∈ fs.dirs then some p else none

/-- os.Stat follows symlinks: it succeeds on a directory or on a symlink
whose target exists, and fails on a dangling symlink or a missing path. -/
def statExists (fs : FS) (p : String) : Bool :=
  match fs.isLink p with
  | some t => t ∈ fs.dirs
  | none => p ∈ fs.dirs

/-- os.Remove: deletes a symlink entry; on a (non-empty) data directory it
fails, and on a missing path it fails. -/
def removeEntry (fs : FS) (p : String) : Option FS :=
  match fs.isLink p with
  | some _ => some { fs with links := fs.links.filter (fun q => q.1 != p) }
  | none => none

/-- os.Symlink target linkPath: fails (EEXIST) when the link path already
exists, be it as a directory or as a symlink (dangling included). -/
def symlinkCreate (fs : FS) (target linkPath : String) : Option FS :=
  if linkPath ∈ fs.dirs ∨ (fs.isLink linkPath).isSome then none
  else some { fs with links := (linkPath, target) :: fs.links }

/-- os.RemoveAll: recursively deletes a path; a missing path (including the
empty path, used when there was no old folder) succeeds trivially; an
undeletable path is an error. -/
def removeAll (fs : FS) (p : String) : Option FS :=
  if p ∈ fs.undeletable then none
  else some { fs with
    dirs := fs.dirs.filter (fun d => d != p),
    links := fs.links.filter (fun q => q.1 != p) }

/-- The Go error results of symlinkMetadataFolder (a non-nil err). -/
inductive GoErr where
  | removeFailed
  | symlinkFailed
  | removeAllFailed
deriving DecidableEq

/-- symlinkMetadataFolder: resolve the current link; when it already
resolves to `newRealFolder` skip link creation; otherwise remove an
existing entry (only when os.Stat succeeds) and create the new symlink;
finally os.RemoveAll the previously resolved folder. Returns the mutated
file system and the final `err` value. -/
def symlinkMetadataFolder (fs : FS) (symlinkFolder newRealFolder : String) :
    FS × Option GoErr :=
  let resolved := evalSymlinks fs symlinkFolder
  let oldRealFolder := resolved.getD ""
  let createSymlink := resolved ≠ some newRealFolder
  if createSymlink then
    let afterRemove : Option FS :=
      if statExists fs symlinkFolder then removeEntry fs symlinkFolder
      else some fs
    match afterRemove with
    | none => (fs, some .removeFailed)
    | some fs1 =>
      match symlinkCreate fs1 newRealFolder symlinkFolder with
      | none => (fs1, some .symlinkFailed)
      | some fs2 =>
        match removeAll fs2 oldRealFolder with
        | none => (fs2, some .removeAllFailed)
        | some fs3 => (fs3, none)
  else
    match removeAll fs oldRealFolder with
    | none => (fs, some .removeAllFailed)
    | some fs1 => (fs1, none)

/-! ## Metadata validation (validateMetadata)

The gosaml engine is modelled by a record exposing the results the code
consumes: the SchemaValidate outcome, the certificate nodes matched by
`(/md:EntitiesDescriptor|/md:EntityDescriptor)/ds:Signature/ds:KeyInfo/ds:X509Data/ds:X509Certificate`,
the PublicKeyInfo outcome on the single certificate, and the
VerifySignature outcome with the corresponding key. Go errors are modelled
structurally, one constructor per fmt.Errorf site, carrying the
interpolated data; `VErr.render` is the message fmt produces. -/

/-- Abstract view of a parsed document as exposed by gosaml to
validateMetadata. -/
structure SigDoc where
  schemaErr : Option Int
  certificates : List String
  keyInfoErr : Option String
  keyname : String
  verifyResult : Option String
deriving DecidableEq

/-- The engine calls validateMetadata can perform, in order. -/
inductive VStep where
  | schemaValidate
  | certQuery
  | publicKeyInfo
  | verifySignature
deriving DecidableEq

/-- The error results of validateMetadata, one constructor per error site. -/
inductive VErr where
  | docValidation (code : Int)
  | metadataNotSigned
  | keyInfoFailed (msg : String)
  | signatureCheckFailed (verify : Option String) (keyname expected : String)
deriving DecidableEq

/-- The message fmt renders for each error value (a nil Go error prints as
`%!s(<nil>)` under the `%s` verb). -/
def VErr.render : VErr → String
  | .docValidation code => "Document validation error " ++ toString code
  | .metadataNotSigned => "Metadata not signed"
  | .keyInfoFailed msg => msg
  | .signatureCheckFailed verify keyname expected =>
    "Signature check failed. Signature " ++
      (match verify with | none => "%!s(<nil>)" | some m => m) ++
      ", " ++ keyname ++ " = " ++ expected

/-- validateMetadata: schema-validate, query the signature certificate
(error unless exactly one), derive the key fingerprint, then verify the
signature and compare the fingerprint in a single combined check
(`ok != nil || keyname != SSLmodulusHash`). The second component is the
list of engine steps performed, recording the short-circuit behaviour. -/
def validateMetadata (doc : SigDoc) (SSLmodulusHash : String) :
    Option VErr × List VStep :=
  match doc.schemaErr with
  | some code => (some (.docValidation code), [.schemaValidate])
  | none =>
    if doc.certificates.length ≠ 1 then
      (some .metadataNotSigned, [.schemaValidate, .certQuery])
    else
      match doc.keyInfoErr with
      | some msg =>
        (some (.keyInfoFailed msg), [.schemaValidate, .certQuery, .publicKeyInfo])
      | none =>
        if doc.verifyResult.isSome ∨ doc.keyname ≠ SSLmodulusHash then
          (some (.signatureCheckFailed doc.verifyResult doc.keyname SSLmodulusHash),
            [.schemaValidate, .certQuery, .publicKeyInfo, .verifySignature])
        else
          (none, [.schemaValidate, .certQuery, .publicKeyInfo, .verifySignature])

/-! ## The main run (main)

main is modelled as a step function: create the timestamped data folder,
process the feeds in configured order (fetch, validate, index — the first
failure is a log.Fatalf exit), fetch and write the discovery-service file,
and only then call symlinkMetadataFolder; a non-nil error from it is also
fatal. The network and per-feed outcomes are supplied by an oracle; the
trace of executed steps is returned together with the final file system
and the success flag. -/

/-- Outcome of processing one feed: where (if anywhere) it fails. -/
inductive FeedOutcome where
  | fetchFailed
  | validateFailed
  | indexFailed
  | ok
deriving DecidableEq

/-- The observable steps of one run of main. -/
inductive MainStep where
  | createFolder
  | fetchFeed (name : String)
  | validateFeed (name : String)
  | indexFeed (name : String)
  | fetchDisco
  | writeDisco
  | promote
deriving DecidableEq

/-- The per-run outcomes main's collaborators produce. -/
structure RunOracle where
  feeds : List (String × FeedOutcome)
  discoFetchOk : Bool
  discoWriteOk : Bool

/-- The feed loop of main: per feed fetch, validate, index; the first
failure stops the run (log.Fatalf). Returns the executed steps and whether
all feeds succeeded. -/
def runFeeds : List (String × FeedOutcome) → List MainStep × Bool
  | [] => ([], true)
  | (n, oc) :: rest =>
    match oc with
    | .fetchFailed => ([.fetchFeed n], false)
    | .validateFailed => ([.fetchFeed n, .validateFeed n], false)
    | .indexFailed => ([.fetchFeed n, .validateFeed n, .indexFeed n], false)
    | .ok =>
      let r := runFeeds rest
      ([.fetchFeed n, .validateFeed n, .indexFeed n] ++ r.1, r.2)

/-- os.Mkdir of the new timestamped data folder: fails when the path
already exists. -/
def mkdirNew (fs : FS) (p : String) : Option FS :=
  if p ∈ fs.dirs ∨ (fs.isLink p).isSome then none
  else some { fs with dirs := p :: fs.dirs }

/-- One run of main over the oracle: the executed steps, the final file
system, and whether the process exits successfully. -/
def mainRun (fs : FS) (symlinkFolder newFolder : String) (o : RunOracle) :
    List MainStep × FS × Bool :=
  match mkdirNew fs newFolder with
  | none => ([.createFolder], fs, false)
  | some fs0 =>
    let fr := runFeeds o.feeds
    if ¬ fr.2 then (.createFolder :: fr.1, fs0, false)
    else if ¬ o.discoFetchOk then
      (.createFolder :: fr.1 ++ [.fetchDisco], fs0, false)
    else if ¬ o.discoWriteOk then
      (.createFolder :: fr.1 ++ [.fetchDisco, .writeDisco], fs0, false)
    else
      let pr := symlinkMetadataFolder fs0 symlinkFolder newFolder
      (.createFolder :: fr.1 ++ [.fetchDisco, .writeDisco, .promote],
        pr.1, pr.2 = none)

end LMDQ

open LMDQ

/-- Looking up a key in a list from which all entries with that key were
filtered out yields nothing. -/
theorem lookup_filter_ne {β : Type} (l : List (String × β)) (a : String) :
    (l.filter (fun q => q.1 != a)).lookup a = none := by
  induction l with
  | nil => rfl
  | cons h t ih =>
    by_cases hc : h.1 = a
    · simp [List.filter_cons, hc, ih]
    · have hca : (a == h.1) = false := by simp [Ne.symm hc]
      simp [List.filter_cons, List.lookup, hc, hca, ih]

/-- A snapshot directory promoted by a first call to symlinkMetadataFolder. -/
def fsFresh : FS :=
  { dirs := ["base/lmdqdata_1700000000"], links := [], undeletable := [] }

/-- The state after the first successful promotion: the live link resolves
to the snapshot directory. -/
def fsLive : FS :=
  { dirs := ["base/lmdqdata_1700000000"],
    links := [("base/lmdqdata", "base/lmdqdata_1700000000")],
    undeletable := [] }

/-- C1: a first call to symlinkMetadataFolder makes the live link resolve to
the new snapshot, but a second call with the same arguments is NOT a no-op:
because the resolved old folder equals the new folder, the final
os.RemoveAll deletes the snapshot directory itself while still returning no
error, leaving the live link dangling. This refutes the claimed idempotence
of repeated promotion. -/
theorem c1_second_call_deletes_snapshot :
    (symlinkMetadataFolder fsFresh "base/lmdqdata" "base/lmdqdata_1700000000"
        = (fsLive, none) ∧
      evalSymlinks fsLive "base/lmdqdata" = some "base/lmdqdata_1700000000") ∧
    (symlinkMetadataFolder fsLive "base/lmdqdata" "base/lmdqdata_1700000000").2
        = none ∧
    "base/lmdqdata_1700000000" ∉
      (symlinkMetadataFolder fsLive "base/lmdqdata" "base/lmdqdata_1700000000").1.dirs ∧
    evalSymlinks
      (symlinkMetadataFolder fsLive "base/lmdqdata" "base/lmdqdata_1700000000").1
      "base/lmdqdata" = none := by
  decide

/-- C9: when the live link exists but dangles (its target directory is
missing), symlinkMetadataFolder neither resolves it (os.Stat fails, so the
link is not removed) nor can create the new one (os.Symlink fails on the
existing path): for every new snapshot path the call returns an error and
leaves the file system, dangling link included, unchanged. Once the link is
removed externally, the same call succeeds. -/
theorem c9_dangling_link_blocks_promotion (fs : FS) (L P N : String)
    (hlink : fs.isLink L = some P) (hdang : P ∉ fs.dirs)
    (hLdir : L ∉ fs.dirs) (hemp : "" ∉ fs.undeletable) :
    symlinkMetadataFolder fs L N = (fs, some GoErr.symlinkFailed) ∧
    (symlinkMetadataFolder
      { fs with links := fs.links.filter (fun q => q.1 != L) } L N).2 = none := by
  constructor
  · simp [symlinkMetadataFolder, evalSymlinks, statExists, symlinkCreate,
      hlink, hdang, hLdir]
  · simp [symlinkMetadataFolder, evalSymlinks, statExists, symlinkCreate,
      removeAll, FS.isLink, lookup_filter_ne, hdang, hLdir, hemp]

/-- C9 witness: a concrete dangling-link state blocking promotion. -/
theorem c9_witness :
    symlinkMetadataFolder
        { dirs := ["base/new"],
          links := [("base/lmdqdata", "base/gone")], undeletable := [] }
        "base/lmdqdata" "base/new"
      = ({ dirs := ["base/new"],
           links := [("base/lmdqdata", "base/gone")], undeletable := [] },
         some GoErr.symlinkFailed) ∧
    (symlinkMetadataFolder
      { dirs := ["base/new"],
        links := ([("base/lmdqdata", "base/gone")] :
            List (String × String)).filter (fun q => q.1 != "base/lmdqdata"),
        undeletable := [] }
      "base/lmdqdata" "base/new").2 = none :=
  c9_dangling_link_blocks_promotion
    { dirs := ["base/new"], links := [("base/lmdqdata", "base/gone")],
      undeletable := [] }
    "base/lmdqdata" "base/gone" "base/new"
    (by decide) (by decide) (by decide) (by decide)

/-- A live pointer to an old snapshot that the OS refuses to delete. -/
def fsC6 : FS :=
  { dirs := ["base/old"], links := [("base/lmdqdata", "base/old")],
    undeletable := ["base/old"] }

/-- The same state after main created the new data folder. -/
def fsC6run : FS :=
  { dirs := ["base/new", "base/old"],
    links := [("base/lmdqdata", "base/old")], undeletable := ["base/old"] }

/-- A run oracle in which every collaborator succeeds. -/
def oracleOk : RunOracle :=
  { feeds := [("hubpub", .ok)], discoFetchOk := true, discoWriteOk := true }

/-- C6 counterexample: when deleting the previously-resolved old directory
fails after the new link is in place, symlinkMetadataFolder returns that
error (it is not swallowed), and main, which treats any non-nil error from
promotion as fatal, aborts the run — refuting the claim that the deletion
failure is non-fatal. The new pointer is nonetheless already live. -/
theorem c6_counterexample :
    (symlinkMetadataFolder fsC6run "base/lmdqdata" "base/new").2
        = some GoErr.removeAllFailed ∧
    (symlinkMetadataFolder fsC6run "base/lmdqdata" "base/new").1.isLink
        "base/lmdqdata" = some "base/new" ∧
    (mainRun fsC6 "base/lmdqdata" "base/new" oracleOk).2.2 = false := by
  decide

/-- C6 amended: after the new symbolic link has been created successfully, a
failure while recursively deleting the previously-resolved target directory
is returned as an error by symlinkMetadataFolder (so the run, which is fatal
on any promotion error, aborts); the new pointer however stays live — the
link to the new snapshot is not rolled back — and the old directory remains
on disk. -/
theorem c6_remove_old_failure_aborts (fs : FS) (L O N : String)
    (hlink : fs.isLink L = some O) (hO : O ∈ fs.dirs) (hON : O ≠ N)
    (hundel : O ∈ fs.undeletable) (hLdir : L ∉ fs.dirs) :
    (symlinkMetadataFolder fs L N).2 = some GoErr.removeAllFailed ∧
    (symlinkMetadataFolder fs L N).1.isLink L = some N ∧
    O ∈ (symlinkMetadataFolder fs L N).1.dirs := by
  have hl : List.lookup L fs.links = some O := hlink
  simp [symlinkMetadataFolder, evalSymlinks, statExists, removeEntry,
    symlinkCreate, removeAll, FS.isLink, lookup_filter_ne, List.lookup,
    hl, hO, hON, hundel, hLdir]

/-- C6 witness: the amended behaviour at the concrete failing state. -/
theorem c6_witness :
    (symlinkMetadataFolder fsC6run "base/lmdqdata" "base/new").2
        = some GoErr.removeAllFailed ∧
    (symlinkMetadataFolder fsC6run "base/lmdqdata" "base/new").1.isLink
        "base/lmdqdata" = some "base/new" ∧
    "base/old" ∈ (symlinkMetadataFolder fsC6run "base/lmdqdata" "base/new").1.dirs :=
  c6_remove_old_failure_aborts fsC6run "base/lmdqdata" "base/old" "base/new"
    (by decide) (by decide) (by decide) (by decide) (by decide)

/-- The feed loop never performs the promotion step. -/
theorem runFeeds_no_promote (l : List (String × FeedOutcome)) :
    MainStep.promote ∉ (runFeeds l).1 := by
  induction l with
  | nil => simp [runFeeds]
  | cons f rest ih =>
    obtain ⟨n, oc⟩ := f
    cases oc <;> simp [runFeeds, ih]

/-- The feed loop fails when some feed fails. -/
theorem runFeeds_fail (l : List (String × FeedOutcome))
    (h : ∃ f ∈ l, f.2 ≠ FeedOutcome.ok) : (runFeeds l).2 = false := by
  induction l with
  | nil => simp at h
  | cons f rest ih =>
    obtain ⟨n, oc⟩ := f
    cases oc with
    | ok =>
      apply ih
      rcases h with ⟨g, hg, hgo⟩
      rcases List.mem_cons.1 hg with hh | ht
      · subst hh; simp at hgo
      · exact ⟨g, ht, hgo⟩
    | fetchFailed => simp [runFeeds]
    | validateFailed => simp [runFeeds]
    | indexFailed => simp [runFeeds]

/-- The feed loop succeeds when every feed succeeds. -/
theorem runFeeds_ok (l : List (String × FeedOutcome))
    (h : ∀ f ∈ l, f.2 = FeedOutcome.ok) : (runFeeds l).2 = true := by
  induction l with
  | nil => rfl
  | cons f rest ih =>
    obtain ⟨n, oc⟩ := f
    have hf := h (n, oc) (List.mem_cons_self _ _)
    simp at hf
    subst hf
    simpa [runFeeds] using ih (fun g hg => h g (List.mem_cons_of_mem _ hg))

/-- mkdirNew only prepends the new directory. -/
theorem mkdirNew_eq (fs : FS) (p : String) (fs0 : FS)
    (h : mkdirNew fs p = some fs0) :
    fs0.links = fs.links ∧ fs0.dirs = p :: fs.dirs ∧
      fs0.undeletable = fs.undeletable := by
  unfold mkdirNew at h
  split at h
  · simp at h
  · injection h with h2
    subst h2
    exact ⟨rfl, rfl, rfl⟩

/-- C3: if any configured feed fails to fetch, validate or index, main
exits before the promotion step: symlinkMetadataFolder is never invoked,
the live link set is unchanged, every previously existing directory
(the previously published snapshot included) is still present, and the run
fails. -/
theorem c3_feed_failure_blocks_promotion (fs : FS) (L N : String)
    (o : RunOracle) (hfail : ∃ f ∈ o.feeds, f.2 ≠ FeedOutcome.ok) :
    MainStep.promote ∉ (mainRun fs L N o).1 ∧
    (mainRun fs L N o).2.1.links = fs.links ∧
    fs.dirs ⊆ (mainRun fs L N o).2.1.dirs ∧
    (mainRun fs L N o).2.2 = false := by
  have hf := runFeeds_fail o.feeds hfail
  unfold mainRun
  cases hmk : mkdirNew fs N with
  | none =>
    refine ⟨by simp, rfl, fun d hd => hd, rfl⟩
  | some fs0 =>
    obtain ⟨hlinks, hdirs, _⟩ := mkdirNew_eq fs N fs0 hmk
    refine ⟨?_, by simp [hf, hlinks], ?_, by simp [hf]⟩
    · simp [hf, runFeeds_no_promote]
    · simp only [hf]
      intro d hd
      simp [hdirs, hd]

/-- C3 witness: a run with one valid feed and one failing feed. -/
theorem c3_witness :
    MainStep.promote ∉
      (mainRun fsC6 "base/lmdqdata" "base/new"
        { feeds := [("good", .ok), ("bad", .validateFailed)],
          discoFetchOk := true, discoWriteOk := true }).1 ∧
    (mainRun fsC6 "base/lmdqdata" "base/new"
        { feeds := [("good", .ok), ("bad", .validateFailed)],
          discoFetchOk := true, discoWriteOk := true }).2.1.links = fsC6.links ∧
    fsC6.dirs ⊆
      (mainRun fsC6 "base/lmdqdata" "base/new"
        { feeds := [("good", .ok), ("bad", .validateFailed)],
          discoFetchOk := true, discoWriteOk := true }).2.1.dirs ∧
    (mainRun fsC6 "base/lmdqdata" "base/new"
        { feeds := [("good", .ok), ("bad", .validateFailed)],
          discoFetchOk := true, discoWriteOk := true }).2.2 = false :=
  c3_feed_failure_blocks_promotion fsC6 "base/lmdqdata" "base/new"
    { feeds := [("good", .ok), ("bad", .validateFailed)],
      discoFetchOk := true, discoWriteOk := true }
    ⟨("bad", .validateFailed), by decide⟩

/-- C10: even when every configured feed succeeds, a failure fetching the
discovery-service file or writing it into the snapshot aborts the run
before the promotion step: symlinkMetadataFolder is never invoked, the
live link set is unchanged, and the run fails. -/
theorem c10_disco_failure_blocks_promotion (fs : FS) (L N : String)
    (o : RunOracle) (hok : ∀ f ∈ o.feeds, f.2 = FeedOutcome.ok)
    (hdisco : o.discoFetchOk = false ∨ o.discoWriteOk = false) :
    MainStep.promote ∉ (mainRun fs L N o).1 ∧
    (mainRun fs L N o).2.1.links = fs.links ∧
    (mainRun fs L N o).2.2 = false := by
  have hf := runFeeds_ok o.feeds hok
  unfold mainRun
  cases hmk : mkdirNew fs N with
  | none => exact ⟨by simp, rfl, rfl⟩
  | some fs0 =>
    obtain ⟨hlinks, _, _⟩ := mkdirNew_eq fs N fs0 hmk
    rcases hdisco with hd | hd
    · refine ⟨?_, by simp [hf, hd, hlinks], by simp [hf, hd]⟩
      simp [hf, hd, runFeeds_no_promote]
    · cases hfd : o.discoFetchOk with
      | false =>
        refine ⟨?_, by simp [hf, hfd, hlinks], by simp [hf, hfd]⟩
        simp [hf, hfd, runFeeds_no_promote]
      | true =>
        refine ⟨?_, by simp [hf, hfd, hd, hlinks], by simp [hf, hfd, hd]⟩
        simp [hf, hfd, hd, runFeeds_no_promote]

/-- C10 witness: all feeds succeed but the discovery fetch fails. -/
theorem c10_witness :
    MainStep.promote ∉
      (mainRun fsC6 "base/lmdqdata" "base/new"
        { feeds := [("hubpub", .ok)],
          discoFetchOk := false, discoWriteOk := true }).1 ∧
    (mainRun fsC6 "base/lmdqdata" "base/new"
        { feeds := [("hubpub", .ok)],
          discoFetchOk := false, discoWriteOk := true }).2.1.links = fsC6.links ∧
    (mainRun fsC6 "base/lmdqdata" "base/new"
        { feeds := [("hubpub", .ok)],
          discoFetchOk := false, discoWriteOk := true }).2.2 = false :=
  c10_disco_failure_blocks_promotion fsC6 "base/lmdqdata" "base/new"
    { feeds := [("hubpub", .ok)], discoFetchOk := false, discoWriteOk := true }
    (by decide) (Or.inl rfl)

/-- A schema-valid document whose signature-block query finds no
certificate. -/
def docZeroCert : SigDoc :=
  { schemaErr := none, certificates := [], keyInfoErr := none,
    keyname := "", verifyResult := none }

/-- A schema-valid document whose signature-block query finds two
certificates. -/
def docTwoCert : SigDoc :=
  { schemaErr := none, certificates := ["certA", "certB"],
    keyInfoErr := none, keyname := "", verifyResult := none }

/-- C4 counterexample: a document with zero certificates and a document
with two certificates fail with literally the same error value (and the
same rendered message "Metadata not signed"): the code tests
`len(certificate) != 1` and has a single error site, so the two failure
cases are not distinguishable, against the claimed distinct
NotSigned/AmbiguousSignature errors. -/
theorem c4_counterexample :
    (validateMetadata docZeroCert "3c9a").1 = some VErr.metadataNotSigned ∧
    (validateMetadata docTwoCert "3c9a").1 = some VErr.metadataNotSigned ∧
    (validateMetadata docZeroCert "3c9a").1 = (validateMetadata docTwoCert "3c9a").1 ∧
    ((validateMetadata docZeroCert "3c9a").1.map VErr.render =
      (validateMetadata docTwoCert "3c9a").1.map VErr.render) := by
  decide

/-- C4 amended: whenever the signature-block certificate query finds any
number of certificates other than exactly one — zero and more than one
alike — validateMetadata fails with the one undifferentiated
"Metadata not signed" error; the two cases are not distinguishable from
the error. -/
theorem c4_cert_count_single_error (doc : SigDoc) (hash : String)
    (hschema : doc.schemaErr = none) (hcert : doc.certificates.length ≠ 1) :
    (validateMetadata doc hash).1 = some VErr.metadataNotSigned := by
  simp [validateMetadata, hschema, hcert]

/-- C4 witness: the amended behaviour at the two-certificate document. -/
theorem c4_witness :
    (validateMetadata docTwoCert "3c9a").1 = some VErr.metadataNotSigned :=
  c4_cert_count_single_error docTwoCert "3c9a" rfl (by decide)

/-- C5: a document whose signature verifies cryptographically
(VerifySignature returns nil) but whose derived fingerprint differs from
the expected one fails with the error carrying a nil verify result and the
two differing fingerprints, while a document whose cryptographic
verification itself fails carries the verifier's message; the two error
values are distinct (their data differs: nil versus the verification
failure), so a validly-signed-by-someone-else document is rejected
distinguishably from a broken signature. -/
theorem c5_untrusted_signer_distinct (d1 d2 : SigDoc) (h1 h2 m : String)
    (hs1 : d1.schemaErr = none) (hc1 : d1.certificates.length = 1)
    (hk1 : d1.keyInfoErr = none) (hv1 : d1.verifyResult = none)
    (hne : d1.keyname ≠ h1)
    (hs2 : d2.schemaErr = none) (hc2 : d2.certificates.length = 1)
    (hk2 : d2.keyInfoErr = none) (hv2 : d2.verifyResult = some m) :
    (validateMetadata d1 h1).1
        = some (VErr.signatureCheckFailed none d1.keyname h1) ∧
    (validateMetadata d2 h2).1
        = some (VErr.signatureCheckFailed (some m) d2.keyname h2) ∧
    (validateMetadata d1 h1).1 ≠ (validateMetadata d2 h2).1 := by
  refine ⟨?_, ?_, ?_⟩
  · simp [validateMetadata, hs1, hc1, hk1, hv1, hne]
  · simp [validateMetadata, hs2, hc2, hk2, hv2]
  · simp [validateMetadata, hs1, hc1, hk1, hv1, hne, hs2, hc2, hk2, hv2]

/-- A schema-valid, single-certificate document that verifies
cryptographically but was signed by an untrusted key. -/
def docWrongSigner : SigDoc :=
  { schemaErr := none, certificates := ["certA"], keyInfoErr := none,
    keyname := "deadbeef", verifyResult := none }

/-- A schema-valid, single-certificate document whose digest check fails
(the gosaml verifier reports "digest mismatch", as in the repository's
wrong-digest test). -/
def docBadDigest : SigDoc :=
  { schemaErr := none, certificates := ["certA"], keyInfoErr := none,
    keyname := "3c9a81a80e9032f888ba3cc7ac564364c38f283e",
    verifyResult := some "digest mismatch" }

/-- C5 witness: the two failure modes at concrete documents, with the
expected fingerprint of the repository's test data. -/
theorem c5_witness :
    (validateMetadata docWrongSigner "3c9a81a80e9032f888ba3cc7ac564364c38f283e").1
        = some (VErr.signatureCheckFailed none "deadbeef"
            "3c9a81a80e9032f888ba3cc7ac564364c38f283e") ∧
    (validateMetadata docBadDigest "3c9a81a80e9032f888ba3cc7ac564364c38f283e").1
        = some (VErr.signatureCheckFailed (some "digest mismatch")
            "3c9a81a80e9032f888ba3cc7ac564364c38f283e"
            "3c9a81a80e9032f888ba3cc7ac564364c38f283e") ∧
    (validateMetadata docWrongSigner "3c9a81a80e9032f888ba3cc7ac564364c38f283e").1
        ≠ (validateMetadata docBadDigest "3c9a81a80e9032f888ba3cc7ac564364c38f283e").1 :=
  c5_untrusted_signer_distinct docWrongSigner docBadDigest
    "3c9a81a80e9032f888ba3cc7ac564364c38f283e"
    "3c9a81a80e9032f888ba3cc7ac564364c38f283e" "digest mismatch"
    rfl rfl rfl rfl (by decide) rfl rfl rfl rfl

/-- C8: on any document that is not well-formed or not schema-valid
(SchemaValidate reports an error code), validateMetadata returns exactly
the schema-violation error carrying that code and performs no further
engine step: the recorded trace is the schema validation alone — no
certificate query, no fingerprint derivation, no signature verification. -/
theorem c8_schema_short_circuit (doc : SigDoc) (hash : String) (code : Int)
    (hschema : doc.schemaErr = some code) :
    validateMetadata doc hash
        = (some (VErr.docValidation code), [VStep.schemaValidate]) ∧
    VStep.certQuery ∉ (validateMetadata doc hash).2 ∧
    VStep.publicKeyInfo ∉ (validateMetadata doc hash).2 ∧
    VStep.verifySignature ∉ (validateMetadata doc hash).2 := by
  refine ⟨?_, ?_, ?_, ?_⟩ <;> simp [validateMetadata, hschema]

/-- A truncated input: gosaml's SchemaValidate reports code -1 on it, as in
the repository's truncated-document test. -/
def docTruncated : SigDoc :=
  { schemaErr := some (-1), certificates := [], keyInfoErr := none,
    keyname := "", verifyResult := none }

/-- C8 witness: the truncated document short-circuits at schema
validation with "Document validation error -1". -/
theorem c8_witness :
    validateMetadata docTruncated "3c9a"
        = (some (VErr.docValidation (-1)), [VStep.schemaValidate]) ∧
    VStep.certQuery ∉ (validateMetadata docTruncated "3c9a").2 ∧
    VStep.publicKeyInfo ∉ (validateMetadata docTruncated "3c9a").2 ∧
    VStep.verifySignature ∉ (validateMetadata docTruncated "3c9a").2 :=
  c8_schema_short_circuit docTruncated "3c9a" (-1) rfl

/-- An entity with entityID "urn:x" and no secondary-index match. -/
def entityX : EntityNode := { entityID := "urn:x", ssoLocations := [] }

/-- An aggregate holding only `entityX`. -/
def docX : MetaDoc := { entities := [entityX] }

/-- C2 counterexample: the file written for entityID "urn:x" is NOT named
by the bare hex SHA-1 digest of "urn:x": createEntityFile prepends the
literal "\x7bsha1\x7d" to the digest (fmt.Sprintf("%s/\x7bsha1\x7d%s", ...)), so the
path differs from the claimed `<base>/<snapshot-dir>/<feed-name>/<hex-digest>`
layout. -/
theorem c2_counterexample :
    createMDQFiles docX "base/snap" "feed" =
      [("base/snap/feed/{sha1}3b1fd55f192b3fc87316a04000c15ddb6255e07e",
        entityX)] ∧
    sha1Hex "urn:x" = "3b1fd55f192b3fc87316a04000c15ddb6255e07e" ∧
    "base/snap/feed/{sha1}3b1fd55f192b3fc87316a04000c15ddb6255e07e" ≠
      "base/snap/feed/" ++ sha1Hex "urn:x" := by
  decide

/-- C2 amended: for every entity with entityID s processed by
createMDQFiles, the primary file written in the feed's destination
directory is named by the literal prefix "\x7bsha1\x7d" followed by the hex SHA-1
digest of the literal string s (layout
`<base>/<snapshot-dir>/<feed-name>/\x7bsha1\x7d<hex-digest>`), and its content is
that entity's self-contained fragment, which parses back to an entityID
equal to s (file content is the entity node itself in this model). -/
theorem c2_primary_file_name_and_content (doc : MetaDoc) (base feed : String)
    (e : EntityNode) (he : e ∈ doc.entities) :
    (base ++ "/" ++ feed ++ "/{sha1}" ++ sha1Hex e.entityID, e) ∈
      createMDQFiles doc base feed := by
  simp only [createMDQFiles, createEntityFile, List.mem_flatMap]
  exact ⟨e, he, List.mem_cons_self _ _⟩

/-- C2 witness: the amended naming at the concrete entity "urn:x". -/
theorem c2_witness :
    ("base/snap" ++ "/" ++ "feed" ++ "/{sha1}" ++ sha1Hex entityX.entityID,
        entityX) ∈ createMDQFiles docX "base/snap" "feed" :=
  c2_primary_file_name_and_content docX "base/snap" "feed" entityX
    (List.mem_cons_self _ _)

/-- First of two entities sharing the same IDP SSO endpoint location. -/
def e1C7 : EntityNode :=
  { entityID := "urn:x", ssoLocations := ["https://idp.example.org/sso"] }

/-- Second of the two sharing entities, later in document order. -/
def e2C7 : EntityNode :=
  { entityID := "urn:y", ssoLocations := ["https://idp.example.org/sso"] }

/-- A third entity with no IDP SSO endpoint. -/
def e3C7 : EntityNode := { entityID := "urn:z", ssoLocations := [] }

/-- The three-entity aggregate of the end-to-end scenario. -/
def docC7 : MetaDoc := { entities := [e1C7, e2C7, e3C7] }

/-- C7 counterexample: the two entities sharing an SSO location write their
secondary-index files to the SAME content address (two writes to one path),
so after the run only one secondary file exists for that location and it
holds the later entity's fragment — the earlier sharing entity's fragment is
overwritten. This refutes the claim that the two sharing entities'
secondary-index files are independent copies each holding its own
entity-specific fragment. -/
theorem c7_counterexample :
    (createMDQFiles docC7 "b" "f").countP
        (fun q =>
          q.1 == "b/f/{sha1}e4fd382f216f7b65974ed51865d71b007fa99fca") = 2 ∧
    (applyWrites (createMDQFiles docC7 "b" "f")).countP
        (fun q =>
          q.1 == "b/f/{sha1}e4fd382f216f7b65974ed51865d71b007fa99fca") = 1 ∧
    (applyWrites (createMDQFiles docC7 "b" "f")).lookup
        "b/f/{sha1}e4fd382f216f7b65974ed51865d71b007fa99fca" = some e2C7 ∧
    e2C7 ≠ e1C7 := by
  decide

/-- C7 amended: for a feed of three entities, two of which share one SSO
endpoint location (and whose four content-addressed paths are pairwise
distinct), the destination directory ends up with exactly the 3 primary
files plus ONE secondary file for the shared location; both sharing
entities write to that one secondary path, the later write overwriting the
earlier, so the surviving secondary file holds the later entity's
fragment. -/
theorem c7_shared_location_overwrites (base feed : String)
    (e1 e2 e3 : EntityNode) (loc : String) (p1 p2 p3 pl : String)
    (hp1 : p1 = base ++ "/" ++ feed ++ "/{sha1}" ++ sha1Hex e1.entityID)
    (hp2 : p2 = base ++ "/" ++ feed ++ "/{sha1}" ++ sha1Hex e2.entityID)
    (hp3 : p3 = base ++ "/" ++ feed ++ "/{sha1}" ++ sha1Hex e3.entityID)
    (hpl : pl = base ++ "/" ++ feed ++ "/{sha1}" ++ sha1Hex loc)
    (hs1 : e1.ssoLocations = [loc]) (hs2 : e2.ssoLocations = [loc])
    (hs3 : e3.ssoLocations = [])
    (d12 : p1 ≠ p2) (d13 : p1 ≠ p3) (d1l : p1 ≠ pl)
    (d23 : p2 ≠ p3) (d2l : p2 ≠ pl) (d3l : p3 ≠ pl) :
    applyWrites (createMDQFiles { entities := [e1, e2, e3] } base feed) =
      [(p1, e1), (p2, e2), (pl, e2), (p3, e3)] ∧
    (applyWrites (createMDQFiles { entities := [e1, e2, e3] } base feed)).lookup
        pl = some e2 := by
  have h1l := Ne.symm d1l
  have h2l := Ne.symm d2l
  have h3l := Ne.symm d3l
  have key : applyWrites (createMDQFiles { entities := [e1, e2, e3] } base feed)
      = [(p1, e1), (p2, e2), (pl, e2), (p3, e3)] := by
    simp [createMDQFiles, createEntityFile, applyWrites, hs1, hs2, hs3,
      List.filter_cons, ← hp1, ← hp2, ← hp3, ← hpl,
      d12, d13, d1l, d23, d2l, d3l, h2l, h3l]
  refine ⟨key, ?_⟩
  rw [key]
  have hb1 : (pl == p1) = false := by simp [h1l]
  have hb2 : (pl == p2) = false := by simp [h2l]
  simp [List.lookup, hb1, hb2]

/-- C7 witness: the amended behaviour at the concrete three-entity feed. -/
theorem c7_witness :
    applyWrites (createMDQFiles { entities := [e1C7, e2C7, e3C7] } "b" "f") =
      [("b/f/{sha1}3b1fd55f192b3fc87316a04000c15ddb6255e07e", e1C7),
       ("b/f/{sha1}46c4cbc9c404ca1b84a131b655ae5ab07878f706", e2C7),
       ("b/f/{sha1}e4fd382f216f7b65974ed51865d71b007fa99fca", e2C7),
       ("b/f/{sha1}1802ac54fb4b41810fe3c7890cb71d188a172104", e3C7)] ∧
    (applyWrites
        (createMDQFiles { entities := [e1C7, e2C7, e3C7] } "b" "f")).lookup
      "b/f/{sha1}e4fd382f216f7b65974ed51865d71b007fa99fca" = some e2C7 := by
  have h := c7_shared_location_overwrites "b" "f" e1C7 e2C7 e3C7
    "https://idp.example.org/sso"
    "b/f/{sha1}3b1fd55f192b3fc87316a04000c15ddb6255e07e"
    "b/f/{sha1}46c4cbc9c404ca1b84a131b655ae5ab07878f706"
    "b/f/{sha1}1802ac54fb4b41810fe3c7890cb71d188a172104"
    "b/f/{sha1}e4fd382f216f7b65974ed51865d71b007fa99fca"
    (by decide) (by decide) (by decide) (by decide)
    rfl rfl rfl
    (by decide) (by decide) (by decide) (by decide) (by decide) (by decide)
  exact h

/-- The SHA-1 implementation agrees with the standard test vector. -/
theorem sha1Hex_abc :
    sha1Hex "abc" = "a9993e364706816aba3e25717850c26c9cd0d89d" := by
  decide
